import Mathlib

/-!
Shallow embedding of the core decision logic of the kubeflow-test repository:
the evaluation gate (`src/evaluate_model.py`, `check_model_thresholds`) and the
drift monitoring engine (`src/monitor_drift.py`, `DriftMonitor`).

Python floats are modelled as rationals (the code only adds, multiplies,
divides and compares them; `np.log` and the chi-square survival function are
transcendental, so they are taken as explicit function parameters of the
embedding, mirroring the fact that the code calls out to numpy/scipy for
them).  Pandas label-indexed series (`value_counts(normalize=True)
.sort_index()`) are modelled as association lists sorted by label.
-/

/-- The slice of `evaluation_results` that `check_model_thresholds` reads:
the `"accuracy"` and `"f1_score"` entries of the evaluation dict. -/
structure EvaluationResults where
  accuracy : ℚ
  f1_score : ℚ
deriving DecidableEq, Repr

/-- The dict returned by `check_model_thresholds` in `src/evaluate_model.py`. -/
structure ThresholdChecks where
  accuracy_check : Bool
  f1_check : Bool
  accuracy_value : ℚ
  f1_value : ℚ
  accuracy_threshold : ℚ
  f1_threshold : ℚ
  all_checks_passed : Bool
deriving DecidableEq, Repr

/-- Embedding of `check_model_thresholds` (src/evaluate_model.py, lines
173-210): builds the checks dict with `>=` comparisons, then overwrites
`all_checks_passed` with `all([accuracy_check, f1_check])`. -/
def check_model_thresholds (evaluation_results : EvaluationResults)
    (accuracy_threshold : ℚ) (f1_threshold : ℚ) : ThresholdChecks :=
  let accuracy_check := decide (evaluation_results.accuracy ≥ accuracy_threshold)
  let f1_check := decide (evaluation_results.f1_score ≥ f1_threshold)
  { accuracy_check := accuracy_check
    f1_check := f1_check
    accuracy_value := evaluation_results.accuracy
    f1_value := evaluation_results.f1_score
    accuracy_threshold := accuracy_threshold
    f1_threshold := f1_threshold
    all_checks_passed := accuracy_check && f1_check }

/-- Errors named by the specification's error-handling design. -/
inductive GateError where
  | validationError
deriving DecidableEq, Repr

/-- A metrics record is well-formed when every metric field lies in [0,1]. -/
def metricsInRange (e : EvaluationResults) : Prop :=
  0 ≤ e.accuracy ∧ e.accuracy ≤ 1 ∧ 0 ≤ e.f1_score ∧ e.f1_score ≤ 1

instance (e : EvaluationResults) : Decidable (metricsInRange e) := by
  unfold metricsInRange; infer_instance

/-- Modelled from the spec: `evaluate_gate` as §4.1/§7 describe it — a metric
field outside [0,1] is a `ValidationError`, otherwise the threshold checks are
returned.  This validating behaviour is absent from `src/evaluate_model.py`;
the definition exists to compare the spec's words with the code. -/
def evaluate_gate_spec (evaluation_results : EvaluationResults)
    (accuracy_threshold f1_threshold : ℚ) : Except GateError ThresholdChecks :=
  if metricsInRange evaluation_results then
    .ok (check_model_thresholds evaluation_results accuracy_threshold f1_threshold)
  else
    .error .validationError

/-! ## Drift monitor: `src/monitor_drift.py` -/

/-- The distinct labels observed in a prediction column, sorted ascending —
the index of `value_counts(...).sort_index()`. -/
def distinctSortedLabels (l : List ℕ) : List ℕ :=
  l.dedup.insertionSort (· ≤ ·)

/-- Embedding of `series.value_counts(normalize=True).sort_index()`: the association list
mapping each observed label, in ascending label order, to its relative
frequency `count / len`. -/
def valueCounts (l : List ℕ) : List (ℕ × ℚ) :=
  (distinctSortedLabels l).map (fun i => (i, (l.count i : ℚ) / l.length))

/-- Embedding of `series.get(i, default)` on a label-indexed pandas series. -/
def distGet (d : List (ℕ × ℚ)) (i : ℕ) (default : ℚ) : ℚ :=
  match d.lookup i with
  | some v => v
  | none => default

/-- The floor used by the code for unobserved classes: `1e-10`. -/
def floorEps : ℚ := 1 / 10 ^ 10

/-- The probability the KL loop reads for class `i` of sample `l`: the
normalized frequency when the class was observed, the `1e-10` floor
otherwise. -/
def floorProb (l : List ℕ) (i : ℕ) : ℚ :=
  if 0 < l.count i then (l.count i : ℚ) / l.length else floorEps

/-- The `scipy.stats.chisquare` statistic on two aligned arrays:
`Σ (obs_i - exp_i)^2 / exp_i` over positionally zipped entries. -/
def chisquareStat (obs exp : List ℚ) : ℚ :=
  ((obs.zip exp).map (fun pr => (pr.1 - pr.2) ^ 2 / pr.2)).sum

/-- Errors the drift monitor can raise: `scipy.stats.chisquare` fails with a
broadcast `ValueError` when its two arrays have different lengths. -/
inductive DriftError where
  | broadcastError
deriving DecidableEq, Repr

/-- The dict returned by `DriftMonitor.monitor_prediction_drift`. -/
structure PredictionDriftResult where
  kl_divergence : ℚ
  chi2_statistic : ℚ
  p_value : ℚ
  drift_detected : Bool
  current_distribution : List (ℕ × ℚ)
  reference_distribution : List (ℕ × ℚ)
deriving DecidableEq, Repr

/-- Embedding of `DriftMonitor.monitor_prediction_drift`
(src/monitor_drift.py, lines 207-267).  `log` stands for `np.log` and `sf` for the chi-square survival
function scipy applies to the statistic and the degrees of freedom to obtain
the p-value.  `randomDraws` is the stream of values `np.random.choice([0,1,2],
size=n_samples)` produces: when `reference_predictions` is `None` the code
substitutes that freshly sampled column for the reference predictions. -/
def monitor_prediction_drift (log : ℚ → ℚ) (sf : ℚ → ℕ → ℚ)
    (randomDraws : List ℕ) (current_predictions : List ℕ)
    (reference_predictions : Option (List ℕ)) :
    Except DriftError PredictionDriftResult :=
  let ref := reference_predictions.getD randomDraws
  let current_dist := valueCounts current_predictions
  let reference_dist := valueCounts ref
  let kl_divergence :=
    ((List.range 3).map (fun i =>
      let p := distGet reference_dist i floorEps
      let q := distGet current_dist i floorEps
      p * log (p / q))).sum
  let obs := current_dist.map Prod.snd
  let expected := reference_dist.map Prod.snd
  if obs.length = expected.length then
    let chi2_stat := chisquareStat obs expected
    let p_value := sf chi2_stat (obs.length - 1)
    .ok { kl_divergence := kl_divergence
          chi2_statistic := chi2_stat
          p_value := p_value
          drift_detected := decide (p_value < 1/20)
          current_distribution := current_dist
          reference_distribution := reference_dist }
  else
    .error .broadcastError

/-- Modelled from the spec: the chi-square goodness-of-fit statistic "of the
observed current prediction counts against expected counts derived from the
reference distribution" — observed counts of each current label against
`reference frequency × current sample size`. -/
def countsChi2Spec (current ref : List ℕ) : ℚ :=
  ((distinctSortedLabels current).map (fun i =>
    let expected := ((ref.count i : ℚ) / ref.length) * current.length
    ((current.count i : ℚ) - expected) ^ 2 / expected)).sum

/-- The slice of `data_drift_results` that `generate_monitoring_summary`
reads. -/
structure DataDriftResults where
  dataset_drift_detected : Bool
  dataset_drift_score : ℚ
  n_features_drifted : ℕ
deriving DecidableEq, Repr

/-- The slice of `test_results` that `generate_monitoring_summary` reads. -/
structure TestResults where
  total_tests : ℕ
  passed_tests : ℕ
  success_rate : ℚ
deriving DecidableEq, Repr

/-- The slice of `prediction_drift` that `generate_monitoring_summary`
reads. -/
structure PredictionDriftInput where
  drift_detected : Bool
  kl_divergence : ℚ
deriving DecidableEq, Repr

/-- The summary dict built by `generate_monitoring_summary`; the nested
`data_drift` / `test_summary` / optional `prediction_drift` sub-dicts are
flattened into named fields. -/
structure MonitoringSummary where
  monitoring_timestamp : String
  overall_status : String
  drift_severity : String
  data_drift_detected : Bool
  data_drift_score : ℚ
  data_drift_features_affected : ℕ
  test_total_tests : ℕ
  test_passed : ℕ
  test_success_rate : ℚ
  recommendations : List String
  next_check : String
  prediction_drift : Option (Bool × ℚ)
deriving DecidableEq, Repr

/-- The retrain recommendation string of the code. -/
def retrainMsg : String := "Consider retraining the model with recent data"

/-- The investigate-pipeline recommendation string of the code. -/
def investigateMsg : String := "Multiple features showing drift - investigate data pipeline"

/-- The immediate-attention recommendation string of the code. -/
def attentionMsg : String := "Drift tests failing - immediate attention required"

/-- The monitor-performance recommendation string of the code. -/
def monitorPerfMsg : String := "Prediction distribution shifted - monitor model performance"

/-- Embedding of `DriftMonitor.generate_monitoring_summary`
(src/monitor_drift.py, lines 269-339).  `now` stands for `datetime.now().isoformat()`, an implicit input
read from the wall clock at call time. -/
def generate_monitoring_summary (now : String)
    (data_drift_results : DataDriftResults) (test_results : TestResults)
    (prediction_drift : Option PredictionDriftInput) :
    MonitoringSummary :=
  let drift_severity :=
    if data_drift_results.dataset_drift_detected then
      if data_drift_results.dataset_drift_score > 7/10 then "high"
      else if data_drift_results.dataset_drift_score > 1/2 then "medium"
      else "low"
    else "none"
  let recommendations :=
    (if drift_severity = "medium" ∨ drift_severity = "high" then [retrainMsg] else [])
    ++ (if data_drift_results.n_features_drifted > 2 then [investigateMsg] else [])
    ++ (if test_results.success_rate < 4/5 then [attentionMsg] else [])
    ++ (if (prediction_drift.map (·.drift_detected)).getD false then [monitorPerfMsg] else [])
  { monitoring_timestamp := now
    overall_status := if drift_severity = "medium" ∨ drift_severity = "high" then "alert" else "ok"
    drift_severity := drift_severity
    data_drift_detected := data_drift_results.dataset_drift_detected
    data_drift_score := data_drift_results.dataset_drift_score
    data_drift_features_affected := data_drift_results.n_features_drifted
    test_total_tests := test_results.total_tests
    test_passed := test_results.passed_tests
    test_success_rate := test_results.success_rate
    recommendations := recommendations
    next_check := "Monitor daily for the next week"
    prediction_drift := prediction_drift.map (fun p => (p.drift_detected, p.kl_divergence)) }

/-- A monitoring summary with its timestamp field blanked, to compare the
time-independent part of two summaries. -/
def eraseTimestamp (s : MonitoringSummary) : MonitoringSummary :=
  { s with monitoring_timestamp := "" }

/-! ## Basic lemmas about the distribution machinery -/

theorem mem_distinctSortedLabels {l : List ℕ} {i : ℕ} :
    i ∈ distinctSortedLabels l ↔ i ∈ l := by
  unfold distinctSortedLabels
  rw [(List.perm_insertionSort _ _).mem_iff, List.mem_dedup]

theorem nodup_distinctSortedLabels (l : List ℕ) : (distinctSortedLabels l).Nodup :=
  ((List.perm_insertionSort _ _).nodup_iff).mpr l.nodup_dedup

theorem sorted_distinctSortedLabels (l : List ℕ) :
    (distinctSortedLabels l).Sorted (· ≤ ·) :=
  List.sorted_insertionSort _ _

theorem distinctSortedLabels_eq_iff (a b : List ℕ) :
    distinctSortedLabels a = distinctSortedLabels b ↔ a.toFinset = b.toFinset := by
  constructor
  · intro h
    ext x
    rw [List.mem_toFinset, List.mem_toFinset, ← mem_distinctSortedLabels,
      ← @mem_distinctSortedLabels b, h]
  · intro h
    refine List.eq_of_perm_of_sorted ?_ (sorted_distinctSortedLabels a)
      (sorted_distinctSortedLabels b)
    rw [List.perm_ext_iff_of_nodup (nodup_distinctSortedLabels a)
      (nodup_distinctSortedLabels b)]
    intro x
    rw [mem_distinctSortedLabels, mem_distinctSortedLabels, ← List.mem_toFinset, h,
      List.mem_toFinset]

theorem lookup_map_self (ls : List ℕ) (f : ℕ → ℚ) (i : ℕ) :
    (ls.map (fun j => (j, f j))).lookup i = if i ∈ ls then some (f i) else none := by
  induction ls with
  | nil => rfl
  | cons a t ih =>
    by_cases h : i = a
    · subst h
      simp [List.lookup]
    · have hba : (i == a) = false := beq_eq_false_iff_ne.mpr h
      simp [List.lookup, hba, ih, h]

theorem lookup_valueCounts (l : List ℕ) (i : ℕ) :
    (valueCounts l).lookup i =
      if i ∈ l then some ((l.count i : ℚ) / l.length) else none := by
  unfold valueCounts
  rw [lookup_map_self]
  simp [mem_distinctSortedLabels]

theorem distGet_valueCounts (l : List ℕ) (i : ℕ) :
    distGet (valueCounts l) i floorEps = floorProb l i := by
  unfold distGet floorProb
  rw [lookup_valueCounts]
  by_cases h : i ∈ l
  · simp [h, List.count_pos_iff.mpr h]
  · have : ¬ 0 < l.count i := by simp [List.count_pos_iff, h]
    simp [h, this]

theorem floorProb_pos (l : List ℕ) (i : ℕ) : 0 < floorProb l i := by
  unfold floorProb
  split
  · next h =>
    have hmem : i ∈ l := List.count_pos_iff.mp h
    have hlen : 0 < l.length := List.length_pos.mpr (List.ne_nil_of_mem hmem)
    exact div_pos (by exact_mod_cast h) (by exact_mod_cast hlen)
  · unfold floorEps
    norm_num

theorem sum_range3 (f : ℕ → ℚ) :
    ((List.range 3).map f).sum = ∑ i in Finset.range 3, f i := by
  simp [Finset.sum_range_succ, List.range_succ]
  ring

theorem sum_zip_map (ls : List ℕ) (f g : ℕ → ℚ) (h : ℚ → ℚ → ℚ) :
    (((ls.map f).zip (ls.map g)).map (fun pr => h pr.1 pr.2)).sum
      = (ls.map (fun i => h (f i) (g i))).sum := by
  rw [List.zip_map']
  rw [List.map_map]
  rfl

theorem zip_fst_eq_snd_iff (l₁ : List ℕ) :
    ∀ l₂ : List ℕ, l₁.length = l₂.length →
      ((∀ p ∈ l₁.zip l₂, p.1 = p.2) ↔ l₁ = l₂) := by
  induction l₁ with
  | nil =>
    intro l₂ h
    cases l₂ with
    | nil => simp
    | cons b t => simp at h
  | cons a t₁ ih =>
    intro l₂ h
    cases l₂ with
    | nil => simp at h
    | cons b t₂ =>
      have ht : t₁.length = t₂.length := by simpa using h
      have := ih t₂ ht
      simp only [List.zip_cons_cons, List.mem_cons, List.cons.injEq]
      constructor
      · intro hall
        refine ⟨hall (a, b) (Or.inl rfl), (this).mp (fun p hp => hall p (Or.inr hp))⟩
      · rintro ⟨rfl, rfl⟩
        rintro p (rfl | hp)
        · rfl
        · exact (this).mpr rfl p hp

theorem chi2_term_eq (c cr n nr : ℚ) (hn : n ≠ 0) (hnr : nr ≠ 0) (hcr : cr ≠ 0) :
    ((c / n - cr / nr) ^ 2 / (cr / nr)) * n
      = (c - (cr / nr) * n) ^ 2 / ((cr / nr) * n) := by
  field_simp
  ring

/-! ## Claim theorems -/

/-- C1: for every metrics input and every threshold configuration, the
evaluation gate's `all_checks_passed` equals the conjunction
`accuracy ≥ accuracy_threshold ∧ f1 ≥ f1_threshold`, and each individual
check uses `≥`, so a metric exactly equal to its threshold passes. -/
theorem check_thresholds_conjunction (e : EvaluationResults) (accT f1T : ℚ) :
    ((check_model_thresholds e accT f1T).all_checks_passed = true ↔
      (e.accuracy ≥ accT ∧ e.f1_score ≥ f1T)) ∧
    ((check_model_thresholds e accT f1T).accuracy_check = true ↔ e.accuracy ≥ accT) ∧
    ((check_model_thresholds e accT f1T).f1_check = true ↔ e.f1_score ≥ f1T) := by
  simp [check_model_thresholds]

/-- C7 counterexample: on the out-of-range metrics `accuracy = 3/2`, the code's
gate does not fail — it returns an ordinary checks record — while the gate the
spec describes rejects this input with a `ValidationError`. -/
theorem gate_no_validation_counterexample :
    check_model_thresholds ⟨3/2, 1/2⟩ (4/5) (4/5) =
      { accuracy_check := true
        f1_check := false
        accuracy_value := 3/2
        f1_value := 1/2
        accuracy_threshold := 4/5
        f1_threshold := 4/5
        all_checks_passed := false } ∧
    evaluate_gate_spec ⟨3/2, 1/2⟩ (4/5) (4/5) = .error .validationError := by
  constructor
  · norm_num [check_model_thresholds]
  · norm_num [evaluate_gate_spec, metricsInRange]

/-- C7 amended: `check_model_thresholds` performs no range validation and has
no failure modes at all: on every metrics input, in range or not, it totally
applies the `≥` comparisons; the validating gate of the spec agrees with it
exactly on the inputs whose metrics lie in [0,1]. -/
theorem gate_total_on_all_inputs (e : EvaluationResults) (accT f1T : ℚ) :
    ((check_model_thresholds e accT f1T).all_checks_passed = true ↔
      (accT ≤ e.accuracy ∧ f1T ≤ e.f1_score)) ∧
    (metricsInRange e ↔
      evaluate_gate_spec e accT f1T = .ok (check_model_thresholds e accT f1T)) := by
  constructor
  · simp [check_model_thresholds]
  · unfold evaluate_gate_spec
    split
    · next h => simp [h]
    · next h => simp [h]

/-- C2: the summarizer's `drift_severity` is `"none"` exactly when no dataset
drift was detected; with drift detected it is `"high"` when the score exceeds
0.7, `"medium"` when the score is in (0.5, 0.7], and `"low"` when the score is
at most 0.5. -/
theorem summary_drift_severity (now : String) (d : DataDriftResults)
    (t : TestResults) (p : Option PredictionDriftInput) :
    ((generate_monitoring_summary now d t p).drift_severity = "none" ↔
      d.dataset_drift_detected = false) ∧
    (d.dataset_drift_detected = true →
      (((generate_monitoring_summary now d t p).drift_severity = "high" ↔
          7/10 < d.dataset_drift_score) ∧
       ((generate_monitoring_summary now d t p).drift_severity = "medium" ↔
          1/2 < d.dataset_drift_score ∧ d.dataset_drift_score ≤ 7/10) ∧
       ((generate_monitoring_summary now d t p).drift_severity = "low" ↔
          d.dataset_drift_score ≤ 1/2))) := by
  rcases d with ⟨det, score, n⟩
  cases det
  · simp [generate_monitoring_summary]
  · by_cases h7 : (7:ℚ)/10 < score
    · have h5' : (2:ℚ)⁻¹ < score := lt_trans (by norm_num) h7
      simp [generate_monitoring_summary, h7, not_le.mpr h7, not_le.mpr h5']
    · by_cases h5 : (2:ℚ)⁻¹ < score
      · simp [generate_monitoring_summary, h7, h5, not_lt.mp h7]
      · simp [generate_monitoring_summary, h7, h5, not_lt.mp h5]

/-- C2 witness: for detected drift with score 0.6 the severity is `"medium"`. -/
theorem summary_drift_severity_witness :
    (generate_monitoring_summary "2024-01-01T00:00:00" ⟨true, 3/5, 0⟩
      ⟨1, 1, 1⟩ none).drift_severity = "medium" := by
  have h := summary_drift_severity "2024-01-01T00:00:00" ⟨true, 3/5, 0⟩ ⟨1, 1, 1⟩ none
  exact (h.2 rfl).2.1.mpr ⟨by norm_num, by norm_num⟩

/-- C8: `overall_status` is `"alert"` exactly when `drift_severity` is
`"medium"` or `"high"`, and is `"ok"` in every other case. -/
theorem summary_overall_status (now : String) (d : DataDriftResults)
    (t : TestResults) (p : Option PredictionDriftInput) :
    (((generate_monitoring_summary now d t p).overall_status = "alert") ↔
      ((generate_monitoring_summary now d t p).drift_severity = "medium" ∨
       (generate_monitoring_summary now d t p).drift_severity = "high")) ∧
    ((generate_monitoring_summary now d t p).overall_status = "alert" ∨
     (generate_monitoring_summary now d t p).overall_status = "ok") := by
  rcases d with ⟨det, score, n⟩
  cases det
  · simp [generate_monitoring_summary]
  · by_cases h7 : (7:ℚ)/10 < score
    · simp [generate_monitoring_summary, h7]
    · by_cases h5 : (2:ℚ)⁻¹ < score
      · simp [generate_monitoring_summary, h7, h5]
      · simp [generate_monitoring_summary, h7, h5]

/-- C4: the recommendations list is the in-order concatenation of one entry
per triggered rule — retrain iff severity is medium or high, investigate the
pipeline iff more than 2 features drifted, immediate attention iff the test
success rate is below 0.8, monitor performance iff prediction drift was
supplied and detected; in the scenario score 0.75 / drift detected /
3 features drifted / success rate 0.9 / no prediction drift, the list is
exactly the retrain entry followed by the investigate entry. -/
theorem summary_recommendations_order (now : String) (d : DataDriftResults)
    (t : TestResults) (p : Option PredictionDriftInput) :
    ((generate_monitoring_summary now d t p).recommendations =
      (if (generate_monitoring_summary now d t p).drift_severity = "medium" ∨
          (generate_monitoring_summary now d t p).drift_severity = "high"
        then [retrainMsg] else [])
      ++ (if 2 < d.n_features_drifted then [investigateMsg] else [])
      ++ (if t.success_rate < 4/5 then [attentionMsg] else [])
      ++ (if (p.map (·.drift_detected)).getD false then [monitorPerfMsg] else [])) ∧
    (generate_monitoring_summary now ⟨true, 3/4, 3⟩ ⟨10, 9, 9/10⟩
        none).recommendations = [retrainMsg, investigateMsg] := by
  constructor
  · rfl
  · norm_num [generate_monitoring_summary]

/-- C3 counterexample: identical explicit inputs do not guarantee
bit-identical results.  `monitor_prediction_drift` with
`reference_predictions = None` reads the unseeded `np.random.choice` stream:
two calls on the same current predictions but different random draws return
different results.  `generate_monitoring_summary` reads the wall clock: two
calls at different instants return records differing in
`monitoring_timestamp`. -/
theorem hidden_inputs_counterexample :
    monitor_prediction_drift (fun x => x - 1) (fun _ _ => 1/2) [0, 1, 2]
        [0, 1, 2] none ≠
      monitor_prediction_drift (fun x => x - 1) (fun _ _ => 1/2) [0, 0, 1, 2]
        [0, 1, 2] none ∧
    generate_monitoring_summary "2024-01-01T00:00:00" ⟨true, 3/4, 3⟩
        ⟨10, 9, 9/10⟩ none ≠
      generate_monitoring_summary "2024-01-01T00:00:01" ⟨true, 3/4, 3⟩
        ⟨10, 9, 9/10⟩ none := by
  constructor
  · intro h
    have h' := congrArg
      (fun x => x.toOption.map (fun r => r.reference_distribution)) h
    norm_num [monitor_prediction_drift, valueCounts, distinctSortedLabels,
      distGet, floorEps, chisquareStat, Except.toOption, Option.map] at h'
  · intro h
    have h' := congrArg (fun s => s.monitoring_timestamp) h
    simp [generate_monitoring_summary] at h'

/-- C3 amended: every core operation is deterministic in its explicit inputs —
`monitor_prediction_drift` with reference predictions supplied is independent
of the random stream, and all of `generate_monitoring_summary`'s output except
the wall-clock `monitoring_timestamp` field is determined by its inputs.  With
the reference absent the monitor depends on the unseeded random draws, and the
timestamp field differs across calls, as the counterexample shows. -/
theorem determinism_explicit_inputs :
    (∀ (log : ℚ → ℚ) (sf : ℚ → ℕ → ℚ) (draws₁ draws₂ cur ref : List ℕ),
      monitor_prediction_drift log sf draws₁ cur (some ref) =
        monitor_prediction_drift log sf draws₂ cur (some ref)) ∧
    (∀ (t₁ t₂ : String) (d : DataDriftResults) (t : TestResults)
        (p : Option PredictionDriftInput),
      eraseTimestamp (generate_monitoring_summary t₁ d t p) =
        eraseTimestamp (generate_monitoring_summary t₂ d t p)) :=
  ⟨fun _ _ _ _ _ _ => rfl, fun _ _ _ _ _ => rfl⟩

/-- C5: whenever `monitor_prediction_drift` returns, its `kl_divergence` is
the sum over the full 3-class label space of `p·log(p/q)`, where `p` is the
normalized reference prediction distribution and `q` the normalized current
prediction distribution, each with the `1e-10` positive floor substituted for
classes of zero observed count; every `p` and `q` so read is strictly
positive, so no division by zero or `log 0` occurs. -/
theorem prediction_kl_formula (log : ℚ → ℚ) (sf : ℚ → ℕ → ℚ)
    (draws cur ref : List ℕ) (r : PredictionDriftResult)
    (h : monitor_prediction_drift log sf draws cur (some ref) = .ok r) :
    r.kl_divergence =
      ∑ i in Finset.range 3,
        floorProb ref i * log (floorProb ref i / floorProb cur i) ∧
    ∀ i : ℕ, 0 < floorProb ref i ∧ 0 < floorProb cur i := by
  refine ⟨?_, fun i => ⟨floorProb_pos ref i, floorProb_pos cur i⟩⟩
  simp only [monitor_prediction_drift, Option.getD] at h
  split at h
  · cases h
    dsimp only
    rw [sum_range3]
    exact Finset.sum_congr rfl (fun i _ => by
      rw [distGet_valueCounts, distGet_valueCounts])
  · cases h

/-- C5 witness: at current = reference = `[0,1,2]` with `log := fun x => x - 1`
the call returns, its `kl_divergence` satisfies the floored formula, and the
floored probabilities are positive (also at the unobserved class 5). -/
theorem prediction_kl_formula_witness :
    ({ kl_divergence := 0
       chi2_statistic := 0
       p_value := 1/2
       drift_detected := false
       current_distribution := [(0, 1/3), (1, 1/3), (2, 1/3)]
       reference_distribution := [(0, 1/3), (1, 1/3), (2, 1/3)] } :
        PredictionDriftResult).kl_divergence =
      ∑ i in Finset.range 3,
        floorProb [0, 1, 2] i *
          ((fun x => x - 1)
            (floorProb [0, 1, 2] i / floorProb [0, 1, 2] i)) ∧
    (0 : ℚ) < floorProb [0, 1, 2] 0 ∧ (0 : ℚ) < floorProb [0, 1, 2] 5 := by
  have h := prediction_kl_formula (fun x => x - 1) (fun _ _ => 1/2) []
    [0, 1, 2] [0, 1, 2]
    { kl_divergence := 0
      chi2_statistic := 0
      p_value := 1/2
      drift_detected := false
      current_distribution := [(0, 1/3), (1, 1/3), (2, 1/3)]
      reference_distribution := [(0, 1/3), (1, 1/3), (2, 1/3)] }
    (by
      simp [monitor_prediction_drift, valueCounts, distinctSortedLabels,
        distGet, floorEps, chisquareStat, List.range_succ, List.lookup]
      norm_num)
  exact ⟨h.1, (h.2 0).1, (h.2 5).2⟩

/-- C9: running the prediction-drift analysis with the current sample equal to
the reference sample yields `kl_divergence = 0` (each term is
`p · log(p/p) = p · log 1 = 0`), for any `log` with `log 1 = 0`. -/
theorem kl_self_zero (log : ℚ → ℚ) (sf : ℚ → ℕ → ℚ) (draws d : List ℕ)
    (hlog : log 1 = 0) :
    (monitor_prediction_drift log sf draws d (some d)).toOption.map
      (fun r => r.kl_divergence) = some 0 := by
  have hne : ∀ i, distGet (valueCounts d) i floorEps ≠ 0 := fun i => by
    rw [distGet_valueCounts]
    exact ne_of_gt (floorProb_pos d i)
  have hkl : ((List.range 3).map (fun i =>
      distGet (valueCounts d) i floorEps *
        log (distGet (valueCounts d) i floorEps /
          distGet (valueCounts d) i floorEps))).sum = 0 := by
    rw [sum_range3]
    refine Finset.sum_eq_zero (fun i _ => ?_)
    rw [div_self (hne i), hlog, mul_zero]
  simp [monitor_prediction_drift, Except.toOption, hkl]

/-- C9 witness: at the concrete sample `[0, 1, 2]` compared with itself, with
`log := fun x => x - 1` (which sends 1 to 0), the KL divergence is 0. -/
theorem kl_self_zero_witness :
    (monitor_prediction_drift (fun x => x - 1) (fun _ _ => 1/2) [] [0, 1, 2]
      (some [0, 1, 2])).toOption.map (fun r => r.kl_divergence) = some 0 :=
  kl_self_zero (fun x => x - 1) (fun _ _ => 1/2) [] [0, 1, 2] (by norm_num)

/-- C10: the chi-square arrays are aligned positionally over each side's
sorted observed labels — the call completes without error only when both
prediction inputs observe the same number of distinct labels, and the
positional pairing matches class with class at every position exactly when
both inputs observe the same label set. -/
theorem chi2_label_alignment (log : ℚ → ℚ) (sf : ℚ → ℕ → ℚ)
    (draws cur ref : List ℕ) :
    (∀ r, monitor_prediction_drift log sf draws cur (some ref) = .ok r →
      (distinctSortedLabels cur).length = (distinctSortedLabels ref).length) ∧
    ((distinctSortedLabels cur).length = (distinctSortedLabels ref).length →
      ((∀ p ∈ (distinctSortedLabels cur).zip (distinctSortedLabels ref),
          p.1 = p.2) ↔
        cur.toFinset = ref.toFinset)) := by
  constructor
  · intro r h
    simp only [monitor_prediction_drift, Option.getD] at h
    split at h
    · next hlen => simpa [valueCounts] using hlen
    · cases h
  · intro hlen
    rw [zip_fst_eq_snd_iff _ _ hlen, distinctSortedLabels_eq_iff]

/-- C10 witness: for current `[0, 1, 2]` and reference `[2, 1, 0]` the call
returns, both sides observe 3 distinct labels, and since every positionally
paired class matches, the two observed label sets coincide. -/
theorem chi2_label_alignment_witness :
    (distinctSortedLabels [0, 1, 2]).length =
        (distinctSortedLabels [2, 1, 0]).length ∧
    ([0, 1, 2] : List ℕ).toFinset = ([2, 1, 0] : List ℕ).toFinset := by
  have h := chi2_label_alignment (fun x => x - 1) (fun _ _ => 1/2) []
    [0, 1, 2] [2, 1, 0]
  have h1 := h.1
    { kl_divergence := 0
      chi2_statistic := 0
      p_value := 1/2
      drift_detected := false
      current_distribution := [(0, 1/3), (1, 1/3), (2, 1/3)]
      reference_distribution := [(0, 1/3), (1, 1/3), (2, 1/3)] }
    (by
      simp [monitor_prediction_drift, valueCounts, distinctSortedLabels,
        distGet, floorEps, chisquareStat, List.range_succ, List.lookup]
      norm_num)
  exact ⟨h1, (h.2 h1).mp (by decide)⟩

theorem map_snd_valueCounts (l : List ℕ) :
    (valueCounts l).map Prod.snd =
      (distinctSortedLabels l).map (fun i => (l.count i : ℚ) / l.length) := by
  unfold valueCounts
  rw [List.map_map]
  rfl

/-- C6 counterexample: for current predictions `[0,0,1,2]` and reference
predictions `[0,1,2,2]`, the code's `chi2_statistic` is `3/8` — the statistic
of the normalized proportions — while the goodness-of-fit statistic of the
observed current counts against expected counts derived from the reference
distribution is `3/2`; the two disagree. -/
theorem chi2_counts_counterexample :
    (monitor_prediction_drift (fun x => x - 1) (fun _ _ => 1/2) [] [0, 0, 1, 2]
        (some [0, 1, 2, 2])).toOption.map (fun r => r.chi2_statistic) =
      some (3/8) ∧
    countsChi2Spec [0, 0, 1, 2] [0, 1, 2, 2] = 3/2 ∧
    (monitor_prediction_drift (fun x => x - 1) (fun _ _ => 1/2) [] [0, 0, 1, 2]
        (some [0, 1, 2, 2])).toOption.map (fun r => r.chi2_statistic) ≠
      some (countsChi2Spec [0, 0, 1, 2] [0, 1, 2, 2]) := by
  refine ⟨?_, ?_, ?_⟩
  · simp [monitor_prediction_drift, valueCounts, distinctSortedLabels,
      distGet, floorEps, chisquareStat, List.lookup, Except.toOption]
    norm_num
  · norm_num [countsChi2Spec, distinctSortedLabels]
  · simp [monitor_prediction_drift, valueCounts, distinctSortedLabels,
      distGet, floorEps, chisquareStat, List.lookup, Except.toOption,
      countsChi2Spec]
    norm_num

/-- C6 amended: the returned `chi2_statistic` is the goodness-of-fit statistic
of the normalized current proportions against the normalized reference
proportions — when both inputs observe the same label set it equals the
counts-based statistic divided by the current sample size — and
`drift_detected` is true exactly when the accompanying `p_value` is below
0.05. -/
theorem chi2_proportions_scaled (log : ℚ → ℚ) (sf : ℚ → ℕ → ℚ)
    (draws cur ref : List ℕ) (r : PredictionDriftResult)
    (h : monitor_prediction_drift log sf draws cur (some ref) = .ok r) :
    (cur.toFinset = ref.toFinset →
      r.chi2_statistic * (cur.length : ℚ) = countsChi2Spec cur ref) ∧
    r.drift_detected = decide (r.p_value < 1/20) := by
  simp only [monitor_prediction_drift, Option.getD] at h
  split at h
  · cases h
    refine ⟨?_, rfl⟩
    intro hfin
    have hlab : distinctSortedLabels cur = distinctSortedLabels ref :=
      (distinctSortedLabels_eq_iff cur ref).mpr hfin
    dsimp only
    unfold chisquareStat
    rw [map_snd_valueCounts, map_snd_valueCounts, ← hlab,
      sum_zip_map (distinctSortedLabels cur) _ _ (fun a b => (a - b) ^ 2 / b)]
    unfold countsChi2Spec
    by_cases hnil : distinctSortedLabels cur = []
    · rw [hnil]
      simp
    · have hcur0 : cur ≠ [] := fun hc => hnil (by
        simp [hc, distinctSortedLabels])
      have hlen0 : cur.length ≠ 0 := fun h0 => hcur0 (List.length_eq_zero.mp h0)
      have hn : (cur.length : ℚ) ≠ 0 := Nat.cast_ne_zero.mpr hlen0
      rw [← List.sum_map_mul_right]
      refine congrArg List.sum (List.map_congr_left (fun i hi => ?_))
      have hicur : i ∈ cur := mem_distinctSortedLabels.mp hi
      have hiref : i ∈ ref := by
        have := Finset.ext_iff.mp hfin i
        simp only [List.mem_toFinset] at this
        exact this.mp hicur
      have hcr : ((ref.count i : ℕ) : ℚ) ≠ 0 :=
        Nat.cast_ne_zero.mpr (List.count_pos_iff.mpr hiref).ne'
      have hrlen0 : ref.length ≠ 0 :=
        fun h0 => (List.ne_nil_of_mem hiref) (List.length_eq_zero.mp h0)
      have hnr : ((ref.length : ℕ) : ℚ) ≠ 0 := Nat.cast_ne_zero.mpr hrlen0
      exact chi2_term_eq _ _ _ _ hn hnr hcr
  · cases h

/-- C6 amended witness: at current `[0,0,1,2]` (4 samples) and reference
`[0,1,2,2]`, which observe the same label set, the proportions statistic 3/8
times the current sample size 4 equals the counts statistic 3/2, and the
drift flag equals the p-value comparison. -/
theorem chi2_proportions_scaled_witness :
    (3/8 : ℚ) * (([0, 0, 1, 2] : List ℕ).length : ℚ) =
      countsChi2Spec [0, 0, 1, 2] [0, 1, 2, 2] ∧
    false = decide ((1/2 : ℚ) < 1/20) := by
  have h := chi2_proportions_scaled (fun x => x - 1) (fun _ _ => 1/2) []
    [0, 0, 1, 2] [0, 1, 2, 2]
    { kl_divergence := 3/8
      chi2_statistic := 3/8
      p_value := 1/2
      drift_detected := false
      current_distribution := [(0, 1/2), (1, 1/4), (2, 1/4)]
      reference_distribution := [(0, 1/4), (1, 1/4), (2, 1/2)] }
    (by
      simp [monitor_prediction_drift, valueCounts, distinctSortedLabels,
        distGet, floorEps, chisquareStat, List.range_succ, List.lookup]
      norm_num)
  exact ⟨h.1 (by decide), h.2⟩
